import Mathlib

/-!
Verification of the Universa client-side access layer: the resilient request
dispatcher (`make_api_request` in src/frontend/app.py) and the mock simulation
engine (`MockAPI` in src/frontend/mock_api.py).

The Python source is shallowly embedded:
* Response documents are a tagged union `Doc` covering every shape the engine
  or dispatcher can return (Python duck-typed dicts/lists).
* Python floats (match scores) are modelled as rationals; the claims at stake
  depend only on comparison and ordering, where the models agree.
* `random.uniform(0.5, 1.0)` draws are modelled by an oracle `rng : Nat → ℚ`,
  indexed by the position of the candidate in the filtered pool, and the
  `uuid.uuid4().hex[:8]` fragment used to mint profile ids is an oracle
  string parameter `fresh8`.
* The engine's store (`self.profiles`, `self.groups`) is explicit state
  threaded through `handle_request`; the dispatcher's global `USE_MOCK_API`
  flag is explicit state threaded through `make_api_request`.
* Python string operations used by the router (`split("/")`, `startswith`,
  the `in` substring test) are reimplemented below on character lists with
  Python semantics.
-/

namespace Universa

/-- A preference value: the seed data and forms only ever store strings or
lists of strings in the `preferences` mapping (it is opaque to the router). -/
inductive PVal where
  | s (v : String)
  | l (vs : List String)
deriving DecidableEq

/-- An opaque key→value mapping, as stored in `preferences`. -/
abbrev Prefs := List (String × PVal)

/-- A profile document: `{id, name, description, preferences, tags}`. -/
structure Profile where
  id : String
  name : String
  description : String
  preferences : Prefs
  tags : List String
deriving DecidableEq

/-- A group document: `{id, name, description, preferences, members, tags}`. -/
structure Group where
  id : String
  name : String
  description : String
  preferences : Prefs
  members : List String
  tags : List String
deriving DecidableEq

/-- A match entry `{"profile": ..., "score": ...}` produced by `get_matches`. -/
structure MatchResult where
  profile : Profile
  score : ℚ
deriving DecidableEq

/-- A request body for profile creation, mirroring `data.get(key, default)`
access: each field is present (`some`) or absent (`none`). -/
structure Body where
  name : Option String
  description : Option String
  preferences : Option Prefs
  tags : Option (List String)
deriving DecidableEq

/-- The body `{}` used by `create_profile(data or {})` when `data` is absent. -/
def emptyBody : Body := ⟨none, none, none, none⟩

/-- Query parameters: the engine only reads `params.get("limit", 10)`.
Python ints are unbounded and signed, hence `Int`. -/
structure Params where
  limit : Option Int
deriving DecidableEq

/-- Response documents: every shape returned by `MockAPI.handle_request` or by
`make_api_request`. A Python dict containing an `"error"` key is `Doc.error`. -/
inductive Doc where
  | health (status mode : String)
  | keyPair (publicKey privateKey : String)
  | profiles (ps : List Profile)
  | profile (p : Profile)
  | createResult (profileId : String)
  | groups (gs : List Group)
  | matches (ms : List MatchResult)
  | error (msg : String)
deriving DecidableEq

/-- The mock engine's in-memory store (`self.profiles`, `self.groups`). -/
structure MockAPI where
  profiles : List Profile
  groups : List Group
deriving DecidableEq

/-! ### Python string operations

`str.split(sep)`, `str.startswith`, and the `in` substring test, on character
lists, with Python's semantics (`"".split("/") == [""]`, separators kept as
empty fields). -/

/-- `splitChars l` is Python `''.join(l).split('/')` at the character level. -/
def splitChars : List Char → List (List Char)
  | [] => [[]]
  | c :: cs =>
    if c = '/' then [] :: splitChars cs
    else
      match splitChars cs with
      | [] => [[c]]
      | p :: ps => (c :: p) :: ps

/-- Python `s.split("/")`. -/
def pySplit (s : String) : List String :=
  (splitChars s.data).map String.mk

/-- Python `s.split("/")[i]`. Every use in the source is guarded so that the
index exists; the default is never reached. -/
def pyIndex (s : String) (i : Nat) : String :=
  (pySplit s).getD i ""

/-- Python `s.startswith(pre)`. -/
def pyStartswith (s pre : String) : Bool :=
  pre.data.isPrefixOf s.data

/-- Python `sub in s` (substring containment) at the character level. -/
def hasSub (sub : List Char) : List Char → Bool
  | [] => sub.isPrefixOf []
  | c :: t => sub.isPrefixOf (c :: t) || hasSub sub t

/-- Python `l[:n]` for an arbitrary (possibly negative) `n`. -/
def pyTake (n : Int) (l : List α) : List α :=
  if n < 0 then l.take (l.length - (-n).toNat)
  else l.take n.toNat

/-! ### The simulation engine (src/frontend/mock_api.py)

`time.sleep(0.3)` in `handle_request` is a pure delay with no observable
effect on the returned document or the store and is not modelled. -/

/-- `MockAPI.health`. -/
def health : Doc := .health "healthy" "mock"

/-- `MockAPI.generate_key_pair`. The two `uuid4().hex` fragments are modelled
by the per-call fresh-token oracle. -/
def generate_key_pair (fresh8 : String) : Doc :=
  .keyPair ("mock_public_key_" ++ fresh8) ("mock_private_key_" ++ fresh8)

/-- `MockAPI.get_profile`: first profile whose id matches, else the
`NotFound` error document. -/
def get_profile (profiles : List Profile) (profile_id : String) : Doc :=
  match profiles.find? (fun p => p.id == profile_id) with
  | some p => .profile p
  | none => .error "Profile not found"

/-- The profile `MockAPI.create_profile` builds from the request body, with
the source's defaults for missing fields. -/
def newProfile (fresh8 : String) (data : Body) : Profile :=
  { id := "profile_" ++ fresh8
    name := data.name.getD ("User " ++ ("profile_" ++ fresh8))
    description := data.description.getD "No description provided."
    preferences := data.preferences.getD []
    tags := data.tags.getD [] }

/-- `MockAPI.create_profile`: mint a fresh id, append the new profile to the
store, return `{"profile_id": id}`. -/
def create_profile (api : MockAPI) (data : Body) (fresh8 : String) :
    Doc × MockAPI :=
  (.createResult ("profile_" ++ fresh8),
   { api with profiles := api.profiles ++ [newProfile fresh8 data] })

/-- The effective limit `params.get("limit", 10) if params else 10`.
(An empty or limit-free dict also yields the default 10.) -/
def effLimit (params : Option Params) : Int :=
  match params with
  | none => 10
  | some q => q.limit.getD 10

/-- Stable descending insertion by score: the new element goes before the
first strictly smaller (or equal-and-later) element only when its score is
strictly greater... precisely, `m` is placed before `y` iff `y.score ≤ m.score`
fails for no earlier element; this realizes the result of Python's stable
`list.sort(key=score, reverse=True)`. -/
def insertDesc (m : MatchResult) : List MatchResult → List MatchResult
  | [] => [m]
  | y :: ys => if y.score ≤ m.score then m :: y :: ys else y :: insertDesc m ys

/-- Stable sort by score descending, modelling
`matches.sort(key=lambda x: x["score"], reverse=True)`. -/
def sortDesc : List MatchResult → List MatchResult
  | [] => []
  | x :: xs => insertDesc x (sortDesc xs)

/-- `MockAPI.get_matches`: filter out profiles whose id equals `profile_id`,
score each remaining candidate with an independent draw (the `rng` oracle,
indexed by position in the filtered pool), sort by score descending, and
truncate to the effective limit with Python slice semantics. -/
def get_matches (profiles : List Profile) (profile_id : String)
    (params : Option Params) (rng : Nat → ℚ) : List MatchResult :=
  let other := profiles.filter (fun p => p.id ≠ profile_id)
  let scored := other.enum.map (fun ip => MatchResult.mk ip.2 (rng ip.1))
  pyTake (effLimit params) (sortDesc scored)

/-- The fall-through error document of `handle_request`, naming the endpoint
and the method. -/
def notImplementedDoc (endpoint method : String) : Doc :=
  .error ("Endpoint " ++ endpoint ++ " with method " ++ method ++
          " not implemented in mock API")

/-- `MockAPI.handle_request`: the route table, with guards in source order. -/
def handle_request (api : MockAPI) (endpoint method : String)
    (data : Option Body) (params : Option Params) (rng : Nat → ℚ)
    (fresh8 : String) : Doc × MockAPI :=
  if endpoint = "/health" ∧ method = "GET" then
    (health, api)
  else if endpoint = "/encryption/generate-key-pair" ∧ method = "POST" then
    (generate_key_pair fresh8, api)
  else if endpoint = "/profiles/" ∧ method = "GET" then
    (.profiles api.profiles, api)
  else if pyStartswith endpoint "/profiles/" = true ∧ method = "GET" then
    (get_profile api.profiles (pyIndex endpoint 2), api)
  else if endpoint = "/profiles/" ∧ method = "POST" then
    create_profile api (data.getD emptyBody) fresh8
  else if endpoint = "/groups/" ∧ method = "GET" then
    (.groups api.groups, api)
  else if pyStartswith endpoint "/matching/profile/" = true ∧
      hasSub "matches".data endpoint.data = true ∧ method = "GET" then
    (.matches (get_matches api.profiles (pyIndex endpoint 2) params rng), api)
  else
    (notImplementedDoc endpoint method, api)

/-- The disjunction of the route-table guards of `handle_request`: exactly the
`(endpoint, method)` pairs some route accepts. -/
def RouteMatches (endpoint method : String) : Prop :=
  (endpoint = "/health" ∧ method = "GET") ∨
  (endpoint = "/encryption/generate-key-pair" ∧ method = "POST") ∨
  (endpoint = "/profiles/" ∧ method = "GET") ∨
  (pyStartswith endpoint "/profiles/" = true ∧ method = "GET") ∨
  (endpoint = "/profiles/" ∧ method = "POST") ∨
  (endpoint = "/groups/" ∧ method = "GET") ∨
  (pyStartswith endpoint "/matching/profile/" = true ∧
   hasSub "matches".data endpoint.data = true ∧ method = "GET")

instance : ∀ e m, Decidable (RouteMatches e m) := fun e m => by
  unfold RouteMatches
  infer_instance

/-! ### The dispatcher (`make_api_request` in src/frontend/app.py) -/

/-- The methods the dispatcher forwards to the backend; the source tries
them in order and rejects anything else before contacting either source. -/
def SupportedMethod (m : String) : Prop :=
  m = "GET" ∨ m = "POST" ∨ m = "PUT" ∨ m = "DELETE"

instance : DecidablePred SupportedMethod := fun m => by
  unfold SupportedMethod
  infer_instance

/-- What the live-backend attempt would yield, abstracting the HTTP
transport. `ok doc` is a success-status response whose body decodes to
`doc`. `httpError errDoc msg` is a reachable backend answering with a
non-success status and a decodable error document `errDoc`:
`raise_for_status()` raises `HTTPError` — a `RequestException` subclass —
carrying only the status text `msg`, and the response body is discarded by
the handler. `reqException` is a connection-level
`requests.exceptions.RequestException` (connection refused, timeout —
`Timeout` is a subclass, so the source's dedicated timeout branch is dead
code). `jsonDecodeError` is a completed response whose body fails to
decode, raising `json.JSONDecodeError`, which the source handles in its own
later branch. -/
inductive BackendOutcome where
  | ok (doc : Doc)
  | httpError (errDoc : Doc) (msg : String)
  | reqException (msg : String)
  | jsonDecodeError
  | otherException (msg : String)
deriving DecidableEq

/-- The observable outcome of one dispatcher call: the document handed to
the caller, the mode flag after the call (`USE_MOCK_API`), whether the
backend client was contacted, whether the mock engine was invoked, and the
engine store after the call. -/
structure DispatchResult where
  doc : Doc
  useMockAfter : Bool
  backendInvoked : Bool
  engineInvoked : Bool
  engineState : MockAPI
deriving DecidableEq

/-- `make_api_request`: in mock mode forward to the engine; otherwise reject
unsupported methods, then contact the backend and classify the outcome. A
`RequestException` — whether connection-level or the `HTTPError` raised by
`raise_for_status()` on a non-success status, whose error body is dropped —
flips the global flag and retries the same logical call against the engine
(the guard `if not USE_MOCK_API` is true on this path, so the flip-and-retry
is unconditional); a decode failure or any other exception returns an error
document without flipping the flag. -/
def make_api_request (useMock : Bool) (api : MockAPI)
    (endpoint method : String) (data : Option Body) (params : Option Params)
    (outcome : BackendOutcome) (rng : Nat → ℚ) (fresh8 : String) :
    DispatchResult :=
  if useMock then
    let r := handle_request api endpoint method data params rng fresh8
    ⟨r.1, true, false, true, r.2⟩
  else if SupportedMethod method then
    match outcome with
    | .ok doc => ⟨doc, false, true, false, api⟩
    | .httpError _ _ =>
      let r := handle_request api endpoint method data params rng fresh8
      ⟨r.1, true, true, true, r.2⟩
    | .reqException _ =>
      let r := handle_request api endpoint method data params rng fresh8
      ⟨r.1, true, true, true, r.2⟩
    | .jsonDecodeError =>
      ⟨.error "Invalid response from API. Please try again later.",
       false, true, false, api⟩
    | .otherException msg =>
      ⟨.error ("An unexpected error occurred: " ++ msg),
       false, true, false, api⟩
  else
    ⟨.error ("Unsupported method: " ++ method), false, false, false, api⟩

/-- One logical call together with the oracles describing its environment
(backend outcome, score draws, fresh token). -/
structure Call where
  endpoint : String
  method : String
  data : Option Body
  params : Option Params
  outcome : BackendOutcome
  rng : Nat → ℚ
  fresh8 : String

/-- Dispatch one `Call` in the given mode against the given store. -/
def dispatchCall (useMock : Bool) (api : MockAPI) (c : Call) :
    DispatchResult :=
  make_api_request useMock api c.endpoint c.method c.data c.params c.outcome
    c.rng c.fresh8

/-- Run a sequence of calls, threading the mode flag and the engine store. -/
def runCalls (useMock : Bool) (api : MockAPI) :
    List Call → List DispatchResult
  | [] => []
  | c :: cs =>
    let r := dispatchCall useMock api c
    r :: runCalls r.useMockAfter r.engineState cs

/-! ### Concrete test data

The Python engine seeds its store with randomized demo profiles; the claims'
concrete scenario instead fixes a store with profile ids `p1..p5`, which is a
possible store state (the store is mutable and schema-valid). -/

/-- A schema-valid profile with the given id. -/
def sampleProfile (i : String) : Profile :=
  ⟨i, "Demo User " ++ i, "demo", [], []⟩

/-- A store holding exactly the profiles `p1..p5` and no groups. -/
def storeP15 : MockAPI :=
  ⟨["p1", "p2", "p3", "p4", "p5"].map sampleProfile, []⟩

/-- A concrete draw oracle with strictly descending in-range values
.9, .8, .7, .6, .5 — all inside `uniform(0.5, 1.0)`'s support. -/
def rngDesc : Nat → ℚ := fun i => mkRat (9 - (i : Int)) 10

/-- A constant in-range draw oracle. -/
def rngConst : Nat → ℚ := fun _ => 1

/-! ### Helper lemmas: Python string operations -/

/-- A slash-free chunk is returned whole by `splitChars`. -/
lemma splitChars_no_slash (l : List Char) (h : '/' ∉ l) :
    splitChars l = [l] := by
  induction l with
  | nil => rfl
  | cons c cs ih =>
    have hc : ¬ c = '/' := fun e => h (e ▸ List.mem_cons_self c cs)
    have hcs : '/' ∉ cs := fun m => h (List.mem_cons_of_mem _ m)
    rw [splitChars, if_neg hc, ih hcs]

/-- Splitting past a leading slash-free chunk and its separator. -/
lemma splitChars_chunk (a : List Char) (h : '/' ∉ a) (rest : List Char) :
    splitChars (a ++ '/' :: rest) = a :: splitChars rest := by
  induction a with
  | nil => simp [splitChars]
  | cons c cs ih =>
    have hc : ¬ c = '/' := fun e => h (e ▸ List.mem_cons_self c cs)
    have hcs : '/' ∉ cs := fun m => h (List.mem_cons_of_mem _ m)
    rw [List.cons_append, splitChars, if_neg hc, ih hcs]

/-- `("/profiles/" ++ pid).split("/") == ["", "profiles", pid]` for a
slash-free id. -/
lemma pySplit_profiles (pid : String) (h : '/' ∉ pid.data) :
    pySplit ("/profiles/" ++ pid) = ["", "profiles", pid] := by
  have hd : ("/profiles/" ++ pid).data =
      '/' :: ("profiles".data ++ '/' :: pid.data) := by
    rw [String.data_append]
    rfl
  unfold pySplit
  rw [hd, splitChars, if_pos rfl,
    splitChars_chunk "profiles".data (by decide) pid.data,
    splitChars_no_slash pid.data h]
  rfl

/-- `pyIndex ("/profiles/" ++ pid) 2 = pid` for a slash-free id. -/
lemma pyIndex_profiles (pid : String) (h : '/' ∉ pid.data) :
    pyIndex ("/profiles/" ++ pid) 2 = pid := by
  unfold pyIndex
  rw [pySplit_profiles pid h]
  rfl

/-- Appending anything preserves a `startswith` test on the first part. -/
lemma pyStartswith_append (pre s : String) :
    pyStartswith (pre ++ s) pre = true := by
  unfold pyStartswith
  rw [String.data_append]
  exact List.isPrefixOf_iff_prefix.mpr (List.prefix_append _ _)

/-- Two strings of different lengths differ. -/
lemma append_ne_of_length {a s t : String}
    (h : a.length + s.length ≠ t.length) : a ++ s ≠ t := by
  intro e
  apply h
  rw [← String.length_append, e]

/-! ### Helper lemmas: the stable descending sort -/

/-- Elements of an insertion are the new element or an old one. -/
lemma mem_insertDesc {m x : MatchResult} {l : List MatchResult} :
    x ∈ insertDesc m l ↔ x = m ∨ x ∈ l := by
  induction l with
  | nil => simp [insertDesc]
  | cons y ys ih =>
    rw [insertDesc]
    split
    · simp [or_comm, or_left_comm]
    · simp [ih]
      tauto

/-- Descending-by-score orderedness. -/
def DescSorted (l : List MatchResult) : Prop :=
  l.Pairwise (fun a b => b.score ≤ a.score)

/-- Insertion preserves descending orderedness. -/
lemma descSorted_insertDesc (m : MatchResult) {l : List MatchResult}
    (h : DescSorted l) : DescSorted (insertDesc m l) := by
  induction l with
  | nil => simp [insertDesc, DescSorted]
  | cons y ys ih =>
    rw [DescSorted, List.pairwise_cons] at h
    rw [insertDesc]
    split
    · rename_i hc
      rw [DescSorted, List.pairwise_cons]
      refine ⟨?_, List.pairwise_cons.mpr h⟩
      intro b hb
      rcases List.mem_cons.mp hb with rfl | hb
      · exact hc
      · exact le_trans (h.1 b hb) hc
    · rename_i hc
      rw [DescSorted, List.pairwise_cons]
      refine ⟨?_, ih h.2⟩
      intro b hb
      rcases mem_insertDesc.mp hb with rfl | hb
      · exact le_of_lt (lt_of_not_le hc)
      · exact h.1 b hb

/-- The sort's output is descending by score. -/
lemma descSorted_sortDesc (l : List MatchResult) :
    DescSorted (sortDesc l) := by
  induction l with
  | nil => simp [sortDesc, DescSorted]
  | cons x xs ih => exact descSorted_insertDesc x ih

/-- Insertion grows the length by one. -/
lemma length_insertDesc (m : MatchResult) (l : List MatchResult) :
    (insertDesc m l).length = l.length + 1 := by
  induction l with
  | nil => rfl
  | cons y ys ih =>
    rw [insertDesc]
    split
    · rfl
    · simp [ih]

/-- Sorting preserves the length. -/
lemma length_sortDesc (l : List MatchResult) :
    (sortDesc l).length = l.length := by
  induction l with
  | nil => rfl
  | cons x xs ih =>
    rw [sortDesc, length_insertDesc, ih]
    rfl

/-- Sorted lists stay sorted after a Python truncation. -/
lemma descSorted_pyTake (n : Int) {l : List MatchResult}
    (h : DescSorted l) : DescSorted (pyTake n l) := by
  unfold pyTake
  split
  · exact List.Pairwise.sublist (List.take_sublist _ _) h
  · exact List.Pairwise.sublist (List.take_sublist _ _) h

/-- A Python truncation by a nonnegative bound returns at most that many
elements. -/
lemma length_pyTake_le {n : Int} (h : 0 ≤ n) (l : List MatchResult) :
    ((pyTake n l).length : Int) ≤ n := by
  unfold pyTake
  rw [if_neg (not_lt.mpr h)]
  have h1 : (l.take n.toNat).length ≤ n.toNat := List.length_take_le _ _
  omega

/-! ### Helper lemmas: routing -/

/-- A nonempty string has nonzero length. -/
lemma length_ne_zero_of_ne_empty {s : String} (h : s ≠ "") :
    s.length ≠ 0 := by
  intro h0
  apply h
  cases s with
  | mk data =>
    cases data with
    | nil => rfl
    | cons c cs => simp [String.length] at h0

/-- A GET on `"/profiles/" ++ pid` (slash-free, nonempty id) hits the
profile-by-id route, extracting `pid` as path segment 2. -/
lemma handle_request_get_by_id (api : MockAPI) (pid : String)
    (h : '/' ∉ pid.data) (hne : pid ≠ "") (d : Option Body)
    (p : Option Params) (rng : Nat → ℚ) (f8 : String) :
    handle_request api ("/profiles/" ++ pid) "GET" d p rng f8 =
      (get_profile api.profiles pid, api) := by
  have hlen : pid.length ≠ 0 := length_ne_zero_of_ne_empty hne
  have e1 : "/profiles/".length = 10 := rfl
  have e2 : "/health".length = 7 := rfl
  unfold handle_request
  rw [if_neg (fun hc => append_ne_of_length (by omega) hc.1),
    if_neg (fun hc => absurd hc.2 (by decide)),
    if_neg (fun hc => append_ne_of_length (by omega) hc.1),
    if_pos ⟨pyStartswith_append _ _, rfl⟩, pyIndex_profiles pid h]

/-- No route accepts the DELETE method: every DELETE falls through to the
`NotImplemented` document and leaves the store untouched. -/
lemma handle_request_delete (api : MockAPI) (e : String) (d : Option Body)
    (p : Option Params) (rng : Nat → ℚ) (f8 : String) :
    handle_request api e "DELETE" d p rng f8 =
      (notImplementedDoc e "DELETE", api) := by
  unfold handle_request
  rw [if_neg (fun hc => absurd hc.2 (by decide)),
    if_neg (fun hc => absurd hc.2 (by decide)),
    if_neg (fun hc => absurd hc.2 (by decide)),
    if_neg (fun hc => absurd hc.2 (by decide)),
    if_neg (fun hc => absurd hc.2 (by decide)),
    if_neg (fun hc => absurd hc.2 (by decide)),
    if_neg (fun hc => absurd hc.2.2 (by decide))]

/-! ### Helper lemmas: the dispatcher in mock mode -/

/-- In mock mode a call is answered by the engine, the backend is not
contacted, and the mode flag stays up. -/
lemma dispatchCall_mock (api : MockAPI) (c : Call) :
    dispatchCall true api c =
      ⟨(handle_request api c.endpoint c.method c.data c.params c.rng
          c.fresh8).1,
       true, false, true,
       (handle_request api c.endpoint c.method c.data c.params c.rng
          c.fresh8).2⟩ := rfl

/-- Once in mock mode, every call of a run is served by the engine and the
backend client is never contacted. -/
lemma runCalls_mock (cs : List Call) :
    ∀ (api : MockAPI), ∀ r ∈ runCalls true api cs,
      r.backendInvoked = false ∧ r.engineInvoked = true := by
  induction cs with
  | nil =>
    intro api r hr
    simp [runCalls] at hr
  | cons c cs ih =>
    intro api r hr
    have hstep : runCalls true api (c :: cs) =
        dispatchCall true api c ::
          runCalls true (dispatchCall true api c).engineState cs := rfl
    rw [hstep] at hr
    rcases List.mem_cons.mp hr with rfl | hr
    · exact ⟨rfl, rfl⟩
    · exact ih _ r hr

/-- `find?` skips a block in which no element satisfies the predicate. -/
lemma find?_append_of_none {l₁ l₂ : List Profile} {pred : Profile → Bool}
    (h : l₁.find? pred = none) :
    (l₁ ++ l₂).find? pred = l₂.find? pred := by
  rw [List.find?_append, h]
  rfl

/-! ### Claims -/

/-- Counterexample to C1 as stated: a reachable backend answering a LIVE GET
with a non-success status and the well-formed error document
`{"error": "Profile not found"}` is an application-level error, yet
`raise_for_status()` turns it into an `HTTPError` (a `RequestException`):
the dispatcher flips the mode to SIMULATED (so mode after differs from mode
before) and returns the simulation engine's answer — here the profile `p1`
— instead of the backend's error document. -/
theorem app_error_http_status_cex :
    (make_api_request false storeP15 "/profiles/p1" "GET" none none
        (.httpError (.error "Profile not found") "404 Client Error")
        rngConst "x").useMockAfter = true ∧
    (make_api_request false storeP15 "/profiles/p1" "GET" none none
        (.httpError (.error "Profile not found") "404 Client Error")
        rngConst "x").doc ≠ .error "Profile not found" := by
  decide

/-- C1 (amended): in LIVE mode an application-level error document is
returned unchanged with the mode flag unchanged only when the backend
delivers it with a success status (the only way a body survives
`raise_for_status()`); a non-success status, even with a well-formed
decodable error document, raises `HTTPError` — a `RequestException` — and
is handled as a transport failure: the mode flips to SIMULATED, the call is
answered by the simulation engine, and the backend's error document is
discarded. -/
theorem app_error_passthrough_amended (api : MockAPI)
    (endpoint method : String) (d : Option Body) (p : Option Params)
    (rng : Nat → ℚ) (f8 : String) (msg emsg : String) (errDoc : Doc)
    (hm : SupportedMethod method) :
    make_api_request false api endpoint method d p (.ok (.error msg)) rng
        f8 = ⟨.error msg, false, true, false, api⟩ ∧
    make_api_request false api endpoint method d p (.httpError errDoc emsg)
        rng f8 =
      ⟨(handle_request api endpoint method d p rng f8).1, true, true, true,
       (handle_request api endpoint method d p rng f8).2⟩ := by
  constructor <;>
    (unfold make_api_request
     rw [if_neg (by simp), if_pos hm])

/-- Witness for C1 (amended) at concrete LIVE calls: a 2xx error document is
passed through with the mode untouched; a 404-carried one falls back. -/
theorem app_error_passthrough_amended_witness :
    SupportedMethod "GET" ∧
    (make_api_request false storeP15 "/profiles/" "GET" none none
        (.ok (.error "boom")) rngConst "x" =
      ⟨.error "boom", false, true, false, storeP15⟩ ∧
     make_api_request false storeP15 "/profiles/" "GET" none none
        (.httpError (.error "boom") "404 Client Error") rngConst "x" =
      ⟨(handle_request storeP15 "/profiles/" "GET" none none rngConst
          "x").1,
       true, true, true,
       (handle_request storeP15 "/profiles/" "GET" none none rngConst
          "x").2⟩) :=
  ⟨Or.inl rfl,
   app_error_passthrough_amended storeP15 "/profiles/" "GET" none none
     rngConst "x" "boom" "404 Client Error" (.error "boom")
     (Or.inl rfl)⟩

/-- Counterexample to C2 as stated: in SIMULATED mode a PATCH call does
reach the simulation engine (`engineInvoked = true`) and yields the engine's
`NotImplemented` document, not an `UnsupportedMethod` error. -/
theorem unsupported_method_mock_cex :
    (make_api_request true storeP15 "/profiles/" "PATCH" none none
        (.ok (.error "e")) rngConst "x").engineInvoked = true ∧
    (make_api_request true storeP15 "/profiles/" "PATCH" none none
        (.ok (.error "e")) rngConst "x").doc ≠
      .error "Unsupported method: PATCH" := by
  decide

/-- C2 (amended): in LIVE mode, a method outside GET/POST/PUT/DELETE is
rejected with the `UnsupportedMethod` error before contacting either source;
in SIMULATED mode the call is instead forwarded to the simulation engine and
answered by it (the backend is still never contacted). -/
theorem unsupported_method_amended (api : MockAPI)
    (endpoint method : String) (d : Option Body) (p : Option Params)
    (outcome : BackendOutcome) (rng : Nat → ℚ) (f8 : String)
    (hm : ¬ SupportedMethod method) :
    make_api_request false api endpoint method d p outcome rng f8 =
      ⟨.error ("Unsupported method: " ++ method), false, false, false,
       api⟩ ∧
    make_api_request true api endpoint method d p outcome rng f8 =
      ⟨(handle_request api endpoint method d p rng f8).1, true, false, true,
       (handle_request api endpoint method d p rng f8).2⟩ := by
  constructor
  · unfold make_api_request
    rw [if_neg (by simp), if_neg hm]
  · rfl

/-- Witness for C2 (amended) at a concrete PATCH call. -/
theorem unsupported_method_amended_witness :
    ¬ SupportedMethod "PATCH" ∧
    (make_api_request false storeP15 "/groups/" "PATCH" none none
        (.ok (.error "e")) rngConst "x" =
      ⟨.error "Unsupported method: PATCH", false, false, false, storeP15⟩ ∧
     make_api_request true storeP15 "/groups/" "PATCH" none none
        (.ok (.error "e")) rngConst "x" =
      ⟨(handle_request storeP15 "/groups/" "PATCH" none none rngConst
          "x").1,
       true, false, true,
       (handle_request storeP15 "/groups/" "PATCH" none none rngConst
          "x").2⟩) :=
  ⟨by decide,
   unsupported_method_amended storeP15 "/groups/" "PATCH" none none
     (.ok (.error "e")) rngConst "x" (by decide)⟩

/-- C3 fails on the code: the matches route extracts path segment 2, which
for `/matching/profile/p1/matches` is the literal `"profile"`, not `"p1"`;
so `p1` stays in its own candidate pool and, with in-range draws
.9, .8, .7, .6, .5, heads its own match list. The call does return exactly 2
entries, but the first one is `p1` itself. -/
theorem matches_route_requester_not_excluded :
    pyIndex "/matching/profile/p1/matches" 2 = "profile" ∧
    (handle_request storeP15 "/matching/profile/p1/matches" "GET" none
        (some ⟨some 2⟩) rngDesc "x").1 =
      .matches [⟨sampleProfile "p1", mkRat 9 10⟩,
                ⟨sampleProfile "p2", mkRat 8 10⟩] := by
  decide

/-- A concrete LIVE call that hits a connection failure. -/
def c4failingCall : Call :=
  ⟨"/profiles/", "GET", none, none, .reqException "connection refused",
   rngConst, "x"⟩

/-- A concrete follow-up call whose backend would now be reachable. -/
def c4laterCall : Call :=
  ⟨"/groups/", "GET", none, none, .ok (.groups []), rngConst, "y"⟩

/-- A concrete LIVE call whose backend completes but whose body fails to
decode — a transport failure in the spec's taxonomy. -/
def c4decodeCall : Call :=
  ⟨"/profiles/", "GET", none, none, .jsonDecodeError, rngConst, "x"⟩

/-- Counterexample to C4 as stated: after a malformed-body transport failure
(`json.JSONDecodeError`) the mode does not latch — `useMockAfter` is still
LIVE — and the very next call contacts the backend client again and is not
answered by the simulation engine: both calls of the run have
`backendInvoked` and neither has `engineInvoked`. -/
theorem decode_failure_not_latched_cex :
    (dispatchCall false storeP15 c4decodeCall).useMockAfter = false ∧
    (runCalls false storeP15 [c4decodeCall, c4laterCall]).map
        DispatchResult.backendInvoked = [true, true] ∧
    (runCalls false storeP15 [c4decodeCall, c4laterCall]).map
        DispatchResult.engineInvoked = [false, false] := by
  decide

/-- C4 (amended): starting in LIVE mode, once a call suffers a
connection-level transport failure (connection refused or timeout — a
`RequestException`), the mode flag latches to SIMULATED and every subsequent
call of the run — with no manual toggle in the model — is served by the
simulation engine and never contacts the backend client again. (A
malformed-body decode failure, the remaining transport-failure kind, does
not latch the mode: see the counterexample above.) -/
theorem transport_failure_latches (api : MockAPI) (c : Call)
    (cs : List Call) (msg : String)
    (hout : c.outcome = .reqException msg)
    (hm : SupportedMethod c.method) :
    (dispatchCall false api c).useMockAfter = true ∧
    ∀ r ∈ runCalls (dispatchCall false api c).useMockAfter
        (dispatchCall false api c).engineState cs,
      r.backendInvoked = false ∧ r.engineInvoked = true := by
  have h1 : (dispatchCall false api c).useMockAfter = true := by
    unfold dispatchCall make_api_request
    rw [if_neg (by simp), if_pos hm, hout]
  refine ⟨h1, ?_⟩
  rw [h1]
  exact runCalls_mock cs _

/-- Witness for C4 at a concrete failing call followed by one more call. -/
theorem transport_failure_latches_witness :
    c4failingCall.outcome = .reqException "connection refused" ∧
    SupportedMethod c4failingCall.method ∧
    ((dispatchCall false storeP15 c4failingCall).useMockAfter = true ∧
     ∀ r ∈ runCalls (dispatchCall false storeP15 c4failingCall).useMockAfter
         (dispatchCall false storeP15 c4failingCall).engineState
         [c4laterCall],
       r.backendInvoked = false ∧ r.engineInvoked = true) :=
  ⟨rfl, Or.inl rfl,
   transport_failure_latches storeP15 c4failingCall [c4laterCall]
     "connection refused" rfl (Or.inl rfl)⟩

/-- Counterexample to C5 as stated: a malformed/non-JSON body
(`json.JSONDecodeError`) does not flip the mode (`useMockAfter = false`),
does not invoke the engine, and surfaces an error document instead of the
engine's result. -/
theorem malformed_body_no_fallback_cex :
    make_api_request false storeP15 "/profiles/" "GET" none none
        .jsonDecodeError rngConst "x" =
      ⟨.error "Invalid response from API. Please try again later.",
       false, true, false, storeP15⟩ := by
  decide

/-- C5 (amended): a `RequestException` (connection refused or timeout) in
LIVE mode flips the mode to SIMULATED and forwards the same logical call
(same endpoint, method, body, query) to the simulation engine, returning the
engine's result; a malformed/non-JSON body instead returns an error document
without flipping the mode and without invoking the engine. -/
theorem transport_failure_fallback (api : MockAPI)
    (endpoint method : String) (d : Option Body) (p : Option Params)
    (rng : Nat → ℚ) (f8 : String) (msg : String)
    (hm : SupportedMethod method) :
    make_api_request false api endpoint method d p (.reqException msg) rng
        f8 =
      ⟨(handle_request api endpoint method d p rng f8).1, true, true, true,
       (handle_request api endpoint method d p rng f8).2⟩ ∧
    make_api_request false api endpoint method d p .jsonDecodeError rng
        f8 =
      ⟨.error "Invalid response from API. Please try again later.",
       false, true, false, api⟩ := by
  constructor <;>
    (unfold make_api_request
     rw [if_neg (by simp), if_pos hm])

/-- Witness for C5 (amended) at a concrete GET call. -/
theorem transport_failure_fallback_witness :
    SupportedMethod "GET" ∧
    (make_api_request false storeP15 "/profiles/" "GET" none none
        (.reqException "timeout") rngConst "x" =
      ⟨(handle_request storeP15 "/profiles/" "GET" none none rngConst
          "x").1,
       true, true, true,
       (handle_request storeP15 "/profiles/" "GET" none none rngConst
          "x").2⟩ ∧
     make_api_request false storeP15 "/profiles/" "GET" none none
        .jsonDecodeError rngConst "x" =
      ⟨.error "Invalid response from API. Please try again later.",
       false, true, false, storeP15⟩) :=
  ⟨Or.inl rfl,
   transport_failure_fallback storeP15 "/profiles/" "GET" none none
     rngConst "x" "timeout" (Or.inl rfl)⟩

/-- Counterexample to C6 as stated: deleting `p1` does not succeed — the
engine has no DELETE route, so the call yields the `NotImplemented` error
document, the store is unchanged, and a subsequent GET still returns the
profile rather than `NotFound`. -/
theorem delete_profile_cex :
    handle_request storeP15 "/profiles/p1" "DELETE" none none rngConst
        "x" =
      (.error
        "Endpoint /profiles/p1 with method DELETE not implemented in mock API",
       storeP15) ∧
    (handle_request storeP15 "/profiles/p1" "GET" none none rngConst
        "x").1 = .profile (sampleProfile "p1") := by
  decide

/-- C6 (amended): `route("/profiles/{id}", DELETE)` is not part of the
engine's route table: it returns the `NotImplemented` error document naming
the endpoint and DELETE, leaves the store unchanged, and a subsequent GET
for the same id still returns the stored profile. -/
theorem delete_not_implemented (api : MockAPI) (pid : String)
    (pr : Profile) (d : Option Body) (p : Option Params) (rng : Nat → ℚ)
    (f8 : String) (d2 : Option Body) (p2 : Option Params)
    (rng2 : Nat → ℚ) (f82 : String)
    (h : '/' ∉ pid.data) (hne : pid ≠ "")
    (hfind : api.profiles.find? (fun q => q.id == pid) = some pr) :
    handle_request api ("/profiles/" ++ pid) "DELETE" d p rng f8 =
      (notImplementedDoc ("/profiles/" ++ pid) "DELETE", api) ∧
    (handle_request api ("/profiles/" ++ pid) "GET" d2 p2 rng2 f82).1 =
      .profile pr := by
  refine ⟨handle_request_delete api _ d p rng f8, ?_⟩
  rw [handle_request_get_by_id api pid h hne]
  unfold get_profile
  rw [hfind]

/-- Witness for C6 (amended) at the concrete store and id `p1`. -/
theorem delete_not_implemented_witness :
    ('/' ∉ "p1".data ∧ "p1" ≠ "" ∧
     storeP15.profiles.find? (fun q => q.id == "p1") =
       some (sampleProfile "p1")) ∧
    (handle_request storeP15 ("/profiles/" ++ "p1") "DELETE" none none
        rngConst "x" =
      (notImplementedDoc ("/profiles/" ++ "p1") "DELETE", storeP15) ∧
     (handle_request storeP15 ("/profiles/" ++ "p1") "GET" none none
        rngConst "x").1 = .profile (sampleProfile "p1")) :=
  ⟨⟨by decide, by decide, by decide⟩,
   delete_not_implemented storeP15 "p1" (sampleProfile "p1") none none
     rngConst "x" none none rngConst "x" (by decide) (by decide)
     (by decide)⟩

/-- C7: creating a profile returns the freshly minted id (uuid freshness is
the hypothesis `hfresh`), and a subsequent GET for that id returns a profile
whose fields are the request body's, with the source's defaults (generated
placeholder name, placeholder description, empty mapping, empty tag set) for
omitted fields. -/
theorem create_then_get (api : MockAPI) (body : Body) (p : Option Params)
    (rng rng2 : Nat → ℚ) (f8 : String) (d2 : Option Body)
    (p2 : Option Params) (f82 : String)
    (hs : '/' ∉ f8.data)
    (hfresh : ∀ q ∈ api.profiles, q.id ≠ "profile_" ++ f8) :
    handle_request api "/profiles/" "POST" (some body) p rng f8 =
      (.createResult ("profile_" ++ f8),
       ⟨api.profiles ++ [newProfile f8 body], api.groups⟩) ∧
    (handle_request ⟨api.profiles ++ [newProfile f8 body], api.groups⟩
        ("/profiles/" ++ ("profile_" ++ f8)) "GET" d2 p2 rng2 f82).1 =
      .profile (newProfile f8 body) := by
  have hpid : '/' ∉ ("profile_" ++ f8).data := by
    rw [String.data_append]
    intro hmem
    rcases List.mem_append.mp hmem with h1 | h1
    · exact absurd h1 (by decide)
    · exact hs h1
  have hne : ("profile_" ++ f8) ≠ "" := by
    apply append_ne_of_length
    have e1 : "profile_".length = 8 := rfl
    have e2 : ("" : String).length = 0 := rfl
    omega
  have hnone :
      api.profiles.find? (fun q => q.id == ("profile_" ++ f8)) = none := by
    rw [List.find?_eq_none]
    intro q hq
    simpa using hfresh q hq
  constructor
  · unfold handle_request
    rw [if_neg (by decide), if_neg (by decide), if_neg (by decide),
      if_neg (by decide), if_pos ⟨rfl, rfl⟩]
    rfl
  · rw [handle_request_get_by_id _ _ hpid hne]
    unfold get_profile
    have hhead : List.find? (fun q => q.id == "profile_" ++ f8)
        [newProfile f8 body] = some (newProfile f8 body) :=
      List.find?_cons_of_pos _ (by simp [newProfile])
    rw [find?_append_of_none hnone, hhead]

/-- Witness for C7: a concrete create with a partially filled body against
the `p1..p5` store, followed by the GET of the returned id. -/
theorem create_then_get_witness :
    ('/' ∉ "abc12345".data ∧
     ∀ q ∈ storeP15.profiles, q.id ≠ "profile_" ++ "abc12345") ∧
    (handle_request storeP15 "/profiles/" "POST"
        (some ⟨some "Alice", none, none, some ["mentor"]⟩) none rngConst
        "abc12345" =
      (.createResult ("profile_" ++ "abc12345"),
       ⟨storeP15.profiles ++
          [newProfile "abc12345" ⟨some "Alice", none, none, some ["mentor"]⟩],
        storeP15.groups⟩) ∧
     (handle_request
        ⟨storeP15.profiles ++
           [newProfile "abc12345" ⟨some "Alice", none, none, some ["mentor"]⟩],
         storeP15.groups⟩
        ("/profiles/" ++ ("profile_" ++ "abc12345")) "GET" none none
        rngConst "x").1 =
      .profile (newProfile "abc12345" ⟨some "Alice", none, none,
        some ["mentor"]⟩)) :=
  ⟨⟨by decide, by decide⟩,
   create_then_get storeP15 ⟨some "Alice", none, none, some ["mentor"]⟩
     none rngConst rngConst "abc12345" none none "x" (by decide)
     (by decide)⟩

/-- Counterexample to C8 as stated: for the query `{limit: -1}` — a query,
since Python ints are signed — the result has 3 entries, which is not at
most the limit: Python's `matches[:-1]` drops one entry from the end instead
of truncating to the limit. -/
theorem matches_limit_negative_cex :
    ¬ (((get_matches storeP15.profiles "p1" (some ⟨some (-1)⟩)
          rngDesc).length : Int) ≤ effLimit (some ⟨some (-1)⟩)) := by
  decide

/-- C8 (amended): for every profile id and every query whose limit is
nonnegative (with the limit defaulting to 10 when the query or its limit key
is absent), the match list has at most `limit` entries and is sorted by
score descending; a negative limit instead drops entries from the end, per
Python slice semantics. -/
theorem matches_limit_sorted (profiles : List Profile) (pid : String)
    (params : Option Params) (rng : Nat → ℚ)
    (h : 0 ≤ effLimit params) :
    ((get_matches profiles pid params rng).length : Int) ≤
      effLimit params ∧
    DescSorted (get_matches profiles pid params rng) ∧
    effLimit none = 10 ∧ effLimit (some ⟨none⟩) = 10 := by
  refine ⟨?_, ?_, rfl, rfl⟩
  · unfold get_matches
    exact length_pyTake_le h _
  · unfold get_matches
    exact descSorted_pyTake _ (descSorted_sortDesc _)

/-- Witness for C8 (amended) at the concrete store with limit 2. -/
theorem matches_limit_sorted_witness :
    0 ≤ effLimit (some ⟨some 2⟩) ∧
    (((get_matches storeP15.profiles "p1" (some ⟨some 2⟩)
         rngDesc).length : Int) ≤ effLimit (some ⟨some 2⟩) ∧
     DescSorted (get_matches storeP15.profiles "p1" (some ⟨some 2⟩)
       rngDesc) ∧
     effLimit none = 10 ∧ effLimit (some ⟨none⟩) = 10) :=
  ⟨by decide,
   matches_limit_sorted storeP15.profiles "p1" (some ⟨some 2⟩) rngDesc
     (by decide)⟩

/-- C9: the engine's route function is total by construction (every guard
protecting a path-segment extraction also bounds the index), and every
`(endpoint, method)` pair accepted by no route-table guard falls through to
the generic `NotImplemented` error document naming the endpoint and the
method, with the store untouched. -/
theorem route_fallback_not_implemented (api : MockAPI)
    (endpoint method : String) (d : Option Body) (p : Option Params)
    (rng : Nat → ℚ) (f8 : String) (h : ¬ RouteMatches endpoint method) :
    handle_request api endpoint method d p rng f8 =
      (notImplementedDoc endpoint method, api) := by
  unfold handle_request
  split_ifs with h1 h2 h3 h4 h5 h6 h7
  · exact absurd (Or.inl h1) h
  · exact absurd (Or.inr (Or.inl h2)) h
  · exact absurd (Or.inr (Or.inr (Or.inl h3))) h
  · exact absurd (Or.inr (Or.inr (Or.inr (Or.inl h4)))) h
  · exact absurd (Or.inr (Or.inr (Or.inr (Or.inr (Or.inl h5))))) h
  · exact absurd (Or.inr (Or.inr (Or.inr (Or.inr (Or.inr (Or.inl h6))))))
      h
  · exact absurd
      (Or.inr (Or.inr (Or.inr (Or.inr (Or.inr (Or.inr h7)))))) h
  · rfl

/-- Witness for C9 at a concrete unmapped endpoint and method. -/
theorem route_fallback_not_implemented_witness :
    ¬ RouteMatches "/unknown/route" "PATCH" ∧
    handle_request storeP15 "/unknown/route" "PATCH" none none rngConst
      "x" = (notImplementedDoc "/unknown/route" "PATCH", storeP15) :=
  ⟨by decide,
   route_fallback_not_implemented storeP15 "/unknown/route" "PATCH" none
     none rngConst "x" (by decide)⟩

/-- C10: creating a profile appends exactly one new profile at the end of
the profiles collection's insertion order and leaves every previously stored
profile and every group unchanged (for an absent body, the defaults of
`data or {}` apply). -/
theorem create_profile_frame (api : MockAPI) (d : Option Body)
    (p : Option Params) (rng : Nat → ℚ) (f8 : String) :
    handle_request api "/profiles/" "POST" d p rng f8 =
      (.createResult ("profile_" ++ f8),
       ⟨api.profiles ++ [newProfile f8 (d.getD emptyBody)],
        api.groups⟩) := by
  unfold handle_request
  rw [if_neg (by decide), if_neg (by decide), if_neg (by decide),
    if_neg (by decide), if_pos ⟨rfl, rfl⟩]
  rfl

end Universa
